import Mathlib

/-!
Shallow embedding of the product-catalog service (NestJS/TypeScript):
`ProductsService` (src/modules/products/services/products.service.ts) and
`MinioSimpleService` (src/modules/products/services/minio.service.ts).

Modelling conventions:
* A JavaScript object field that can be *absent*, *null* or hold a value is
  a `JsField α` (`delete obj.f` sets it to `.absent`; `obj.f = v` to `.val v`).
* An `async` call that can reject is a function returning `Except String α`;
  the thrown payload is abstracted to a `String` message.
* External collaborators (the TypeORM repository, the MinIO client) are
  passed in as oracle functions: the service code is translated literally
  over whatever those oracles answer.
* Where the service's interaction with a collaborator matters (the DTO it
  hands to the repository, the arguments of a `putObject` call), the
  translated function additionally returns that interaction, so theorems
  can speak about it.
-/

/-- A JavaScript object field: absent (no key), `null`, or a value. -/
inductive JsField (α : Type) where
  | absent : JsField α
  | null : JsField α
  | val : α → JsField α
deriving DecidableEq, Repr

/-- JavaScript truthiness of a string-valued field: `undefined`, `null` and
the empty string are falsy; a non-empty string is truthy. -/
def JsField.truthy : JsField String → Option String
  | JsField.val s => if s = "" then none else some s
  | _ => none

/-- The product entity as the repository returns it (id, name, price,
stockQuantity, inStock, imageUrl, isDeleted). -/
structure Product where
  id : Nat
  name : String
  price : Int
  stockQuantity : Nat
  inStock : Bool
  imageUrl : JsField String
  isDeleted : Bool
deriving DecidableEq, Repr

/-- ProductResponseDto: the outward product shape. In the source it is built
by `const (isDeleted, ...productData) = product`, i.e. the spread copy of the
entity with the `isDeleted` key removed, so here `isDeleted : JsField Bool`
records whether the key is present at all. -/
structure ProductResponseDto where
  id : Nat
  name : String
  price : Int
  stockQuantity : Nat
  inStock : Bool
  imageUrl : JsField String
  isDeleted : JsField Bool
deriving DecidableEq, Repr

/-- CreateProductDto: `stockQuantity` and `inStock` optional in the body. -/
structure CreateProductDto where
  name : String
  price : Int
  stockQuantity : Option Nat
  inStock : Option Bool
deriving DecidableEq, Repr

/-- UpdateProductDto: a partial patch, every field optional. -/
structure UpdateProductDto where
  name : Option String
  price : Option Int
  stockQuantity : Option Nat
  inStock : Option Bool
  imageUrl : Option String
deriving DecidableEq, Repr

/-- The all-`none` patch. -/
def emptyPatch : UpdateProductDto :=
  { name := none, price := none, stockQuantity := none, inStock := none,
    imageUrl := none }

/-- ProductFiltersDto, reduced to the one filter the service inspects. -/
structure ProductFiltersDto where
  includeDeleted : Option Bool
deriving DecidableEq, Repr

/-- The NestJS exceptions the service throws. -/
inductive ServiceError where
  | notFound : String → ServiceError
  | badRequest : String → ServiceError
  | internal : String → ServiceError
deriving DecidableEq, Repr

/-- Whether a result is a NotFoundException. -/
def isNotFoundErr {α : Type} : Except ServiceError α → Bool
  | Except.error (ServiceError.notFound _) => true
  | _ => false

/-- Whether an Except is a success. -/
def isOkE {ε α : Type} : Except ε α → Bool
  | Except.ok _ => true
  | Except.error _ => false

/-- The message of the NotFoundException thrown for a missing id. -/
def notFoundMsg (id : Nat) : String :=
  "Товар с ID " ++ toString id ++ " не найден"

/-- `url.split('/').pop()`: the last segment of a slash-separated string. -/
def lastSegment (s : String) : String :=
  (s.splitOn ("/")).getLastD ""

/-- `s.startsWith(pre)` from JavaScript, character by character. -/
def strStartsWith (s pre : String) : Bool :=
  pre.data.isPrefixOf s.data

/-- The signed-URL post-processing block repeated in findAll, findById,
update and uploadImage: if `product.imageUrl` is truthy, split off the file
name and await `getSignedUrl`; `if (signedUrl)` then replace the field,
`delete` it when the result is falsy (null or the empty string) or the
await throws. `sign` is the awaited call. -/
def resolveImage (sign : String → Except String (Option String))
    (p : Product) : Product :=
  match p.imageUrl.truthy with
  | none => p
  | some url =>
    match sign (lastSegment url) with
    | Except.ok (some s) =>
      if s = "" then { p with imageUrl := JsField.absent }
      else { p with imageUrl := JsField.val s }
    | Except.ok none => { p with imageUrl := JsField.absent }
    | Except.error _ => { p with imageUrl := JsField.absent }

/-- `const (isDeleted, ...productData) = product`: the spread copy without
the `isDeleted` key. -/
def stripIsDeleted (p : Product) : ProductResponseDto :=
  { id := p.id, name := p.name, price := p.price,
    stockQuantity := p.stockQuantity, inStock := p.inStock,
    imageUrl := p.imageUrl, isDeleted := JsField.absent }

/-- findAll, lines 16-48: default `includeDeleted` to false when undefined. -/
def effectiveFilters (filters : ProductFiltersDto) : ProductFiltersDto :=
  match filters.includeDeleted with
  | none => { filters with includeDeleted := some false }
  | some _ => filters

/-- ProductsService.findAll: defaults the filters, queries the repository,
maps each product through image resolution and the isDeleted strip
(`Promise.all` over `products.map` keeps the repository order). Returns the
response list and the filters object actually handed to the repository. -/
def ProductsService.findAll (repoFindAll : ProductFiltersDto → List Product)
    (sign : String → Except String (Option String))
    (filters : ProductFiltersDto) :
    List ProductResponseDto × ProductFiltersDto :=
  let f := effectiveFilters filters
  ((repoFindAll f).map (fun p => stripIsDeleted (resolveImage sign p)), f)

/-- ProductsService.findById, lines 50-74. -/
def ProductsService.findById (repoFindById : Nat → Option Product)
    (sign : String → Except String (Option String)) (id : Nat) :
    Except ServiceError ProductResponseDto :=
  match repoFindById id with
  | none => Except.error (ServiceError.notFound (notFoundMsg id))
  | some product =>
    if product.isDeleted then
      Except.error (ServiceError.notFound (notFoundMsg id))
    else
      Except.ok (stripIsDeleted (resolveImage sign product))

/-- ProductsService.create, lines 76-87: force `inStock = false` when
`stockQuantity === 0`, then delegate to the repository and strip. Returns
the response and the DTO handed to `productsRepository.create`. -/
def ProductsService.create (repoCreate : CreateProductDto → Product)
    (dto : CreateProductDto) :
    Except ServiceError ProductResponseDto × CreateProductDto :=
  let dto2 := if dto.stockQuantity = some 0 then
      { dto with inStock := some false }
    else dto
  let product := repoCreate dto2
  (Except.ok (stripIsDeleted product), dto2)

/-- Lines 103-105 of update: when the patch sets `stockQuantity`, derive
`inStock = stockQuantity > 0` onto the patch; otherwise leave it alone. -/
def effectivePatch (dto : UpdateProductDto) : UpdateProductDto :=
  match dto.stockQuantity with
  | some q => { dto with inStock := some (decide (0 < q)) }
  | none => dto

/-- ProductsService.update, lines 89-129: NotFound when absent, BadRequest
when soft-deleted, else apply the (stock-adjusted) patch through the
repository, resolve the image and strip. Returns the result and the patch
handed to `productsRepository.update` (`none` when no call was made). -/
def ProductsService.update (repoFindById : Nat → Option Product)
    (repoUpdate : Nat → UpdateProductDto → Product)
    (sign : String → Except String (Option String))
    (id : Nat) (dto : UpdateProductDto) :
    Except ServiceError ProductResponseDto × Option UpdateProductDto :=
  match repoFindById id with
  | none => (Except.error (ServiceError.notFound (notFoundMsg id)), none)
  | some product =>
    if product.isDeleted then
      (Except.error (ServiceError.badRequest ("Нельзя обновлять удалённый товар")), none)
    else
      let dto2 := effectivePatch dto
      let updatedProduct := repoUpdate id dto2
      (Except.ok (stripIsDeleted (resolveImage sign updatedProduct)), some dto2)

/-- `productsRepository.findById` over an explicit repository state (a list
of product rows): the row with the requested id, if any. -/
def repoFindByIdS (s : List Product) (id : Nat) : Option Product :=
  s.find? (fun p => p.id == id)

/-- Modelled from the spec: `productsRepository.softDelete(id)` — the
repository source is not part of the staged files; per the spec's repository
contract and soft-delete glossary entry it "flips the soft-delete flag" of
the addressed record, physically removing nothing. -/
def repoSoftDeleteS (s : List Product) (id : Nat) : List Product :=
  s.map (fun p => if p.id == id then { p with isDeleted := true } else p)

/-- ProductsService.remove, lines 131-139, run against the explicit
repository state: NotFound when the row is absent or soft-deleted, else
`softDelete`. Returns the result, the state after the call, and whether
`productsRepository.softDelete` was invoked at all. -/
def ProductsService.remove (s : List Product) (id : Nat) :
    Except ServiceError Unit × List Product × Bool :=
  match repoFindByIdS s id with
  | none => (Except.error (ServiceError.notFound (notFoundMsg id)), s, false)
  | some product =>
    if product.isDeleted then
      (Except.error (ServiceError.notFound (notFoundMsg id)), s, false)
    else
      (Except.ok (), repoSoftDeleteS s id, true)

/-- The multer file object as the service reads it: declared mimetype and
raw bytes. -/
structure MulterFile where
  mimetype : String
  buffer : List Nat
deriving DecidableEq, Repr

/-- ProductsService.deleteOldImage, lines 201-213: split the file name off
the stored URL, await `minioService.deleteFile`, and swallow any error
(logged, not rethrown). `deleteF` is the awaited call. -/
def ProductsService.deleteOldImage (deleteF : String → Except String Unit)
    (imageUrl : String) : Except String Unit :=
  let urlParts := imageUrl.splitOn ("/")
  let fileName := urlParts.getLastD ""
  match deleteF fileName with
  | Except.ok _ => Except.ok ()
  | Except.error _ => Except.ok ()

/-- The try block of uploadImage (lines 161-194): best-effort delete of the
old image when one is stored, upload of the new bytes, persistence of the
returned URL through `productsRepository.update` with an imageUrl-only
patch, then signed-URL resolution and the isDeleted strip. -/
def ProductsService.uploadImageTry
    (repoUpdateE : Nat → UpdateProductDto → Except String Product)
    (uploadPI : List Nat → Nat → Except String String)
    (deleteF : String → Except String Unit)
    (sign : String → Except String (Option String))
    (id : Nat) (product : Product) (f : MulterFile) :
    Except String ProductResponseDto :=
  match (match product.imageUrl.truthy with
    | some url => ProductsService.deleteOldImage deleteF url
    | none => Except.ok ()) with
  | Except.error e => Except.error e
  | Except.ok _ =>
    match uploadPI f.buffer id with
    | Except.error e => Except.error e
    | Except.ok imageUrl =>
      match repoUpdateE id { emptyPatch with imageUrl := some imageUrl } with
      | Except.error e => Except.error e
      | Except.ok updatedProduct =>
        Except.ok (stripIsDeleted (resolveImage sign updatedProduct))

/-- ProductsService.uploadImage, lines 141-199. The NotFound and the two
BadRequest checks come first; then the try block runs; any error escaping
it is re-signaled as the generic InternalServerErrorException. -/
def ProductsService.uploadImage (repoFindById : Nat → Option Product)
    (repoUpdateE : Nat → UpdateProductDto → Except String Product)
    (uploadPI : List Nat → Nat → Except String String)
    (deleteF : String → Except String Unit)
    (sign : String → Except String (Option String))
    (id : Nat) (file : Option MulterFile) :
    Except ServiceError ProductResponseDto :=
  match repoFindById id with
  | none => Except.error (ServiceError.notFound (notFoundMsg id))
  | some product =>
    if product.isDeleted then
      Except.error (ServiceError.notFound (notFoundMsg id))
    else
      match file with
      | none => Except.error (ServiceError.badRequest ("Файл не предоставлен"))
      | some f =>
        if strStartsWith f.mimetype ("image/") = false then
          Except.error (ServiceError.badRequest ("Файл должен быть изображением"))
        else
          match ProductsService.uploadImageTry repoUpdateE uploadPI deleteF
              sign id product f with
          | Except.ok r => Except.ok r
          | Except.error _ =>
            Except.error (ServiceError.internal ("Не удалось загрузить изображение"))

/-- The MinIO client configuration the service reads from the environment. -/
structure MinioConfig where
  endPoint : String
  port : Nat
  useSSL : String
  bucket : String
deriving DecidableEq, Repr

/-- The arguments of a `minioClient.putObject` call. -/
structure PutCall where
  bucket : String
  fileName : String
  bytes : List Nat
  size : Nat
  contentType : String
deriving DecidableEq, Repr

/-- MinioSimpleService.uploadProductImage, lines 36-52: build the
`product-<id>-<Date.now()>.jpg` key, put the bytes with a hardcoded
image/jpeg content type, and return the URL string assembled from the
configuration (https iff MINIO_USE_SSL is the string true). `put` is the
awaited `putObject`; `now` is `Date.now()`. Returns the result together
with the `putObject` call that was issued. -/
def MinioSimpleService.uploadProductImage (cfg : MinioConfig)
    (put : PutCall → Except String Unit) (now : Nat)
    (file : List Nat) (productId : Nat) :
    Except String String × PutCall :=
  let fileName := "product-" ++ toString productId ++ "-" ++ toString now ++ ".jpg"
  let call : PutCall :=
    { bucket := cfg.bucket, fileName := fileName, bytes := file,
      size := file.length, contentType := "image/jpeg" }
  match put call with
  | Except.error e => (Except.error e, call)
  | Except.ok _ =>
    let protocol := if cfg.useSSL = "true" then "https" else "http"
    (Except.ok (protocol ++ "://" ++ cfg.endPoint ++ ":" ++ toString cfg.port
      ++ "/" ++ cfg.bucket ++ "/" ++ fileName), call)

/-- MinioSimpleService.getSignedUrl, lines 54-73: null for a falsy file
name, otherwise a presigned GET URL with a 7-day expiry; a signer error is
caught and turned into null. `presigned` is the awaited
`presignedGetObject`, taking the file name and the expiry in seconds. -/
def MinioSimpleService.getSignedUrl
    (presigned : String → Nat → Except String String)
    (fileName : Option String) : Option String :=
  match fileName with
  | none => none
  | some f =>
    if f = "" then none
    else
      match presigned f (7 * 24 * 60 * 60) with
      | Except.ok signedUrl => some signedUrl
      | Except.error _ => none

/-- MinioSimpleService.deleteFile, lines 75-82: await `removeObject`; on
error, log and rethrow. -/
def MinioSimpleService.deleteFile (removeObject : String → Except String Unit)
    (fileName : String) : Except String Unit :=
  match removeObject fileName with
  | Except.ok _ => Except.ok ()
  | Except.error e => Except.error e

/-- A live sample product row with an image. -/
def sampleActive : Product :=
  { id := 1, name := "Widget", price := 10, stockQuantity := 3,
    inStock := true,
    imageUrl := JsField.val "http://host:9000/images/product-1-5.jpg",
    isDeleted := false }

/-- The same row soft-deleted. -/
def sampleDeleted : Product :=
  { sampleActive with isDeleted := true }

/-- A signer answering null for every file name. -/
def signNone : String → Except String (Option String) :=
  fun _ => Except.ok none

/-- A repository snapshot in which only id 1 exists, soft-deleted. -/
def repoDeletedOnly : Nat → Option Product :=
  fun i => if i == 1 then some sampleDeleted else none

/-- A repository snapshot in which only id 1 exists, live. -/
def repoActiveOnly : Nat → Option Product :=
  fun i => if i == 1 then some sampleActive else none

/-- The `(stripIsDeleted p).isDeleted` key is always absent. -/
theorem stripIsDeleted_absent (p : Product) :
    (stripIsDeleted p).isDeleted = JsField.absent := rfl

/-- C1 counterexample: on a repository whose row 1 is soft-deleted,
`update` throws BadRequestException (the "cannot update a deleted record"
validation error), not NotFoundException — the claim's "same error shape in
all four cases" fails in the soft-deleted update case. -/
theorem c1_counterexample :
    (ProductsService.update repoDeletedOnly (fun _ _ => sampleDeleted)
        signNone 1 emptyPatch).1
      = Except.error (ServiceError.badRequest ("Нельзя обновлять удалённый товар"))
    ∧ isNotFoundErr (ProductsService.update repoDeletedOnly
        (fun _ _ => sampleDeleted) signNone 1 emptyPatch).1 = false := by
  exact ⟨rfl, rfl⟩

/-- C1 amended: findById fails with NotFound both when the row is absent
and when it is soft-deleted, and update fails with the same-shaped NotFound
when the row is absent; but update on a soft-deleted row fails with a
BadRequest validation error, not NotFound. -/
theorem c1_notFound_shapes
    (repoFindById : Nat → Option Product)
    (repoUpdate : Nat → UpdateProductDto → Product)
    (sign : String → Except String (Option String))
    (id : Nat) (dto : UpdateProductDto) :
    (repoFindById id = none →
      ProductsService.findById repoFindById sign id
        = Except.error (ServiceError.notFound (notFoundMsg id))
      ∧ (ProductsService.update repoFindById repoUpdate sign id dto).1
        = Except.error (ServiceError.notFound (notFoundMsg id)))
    ∧ (∀ p, repoFindById id = some p → p.isDeleted = true →
      ProductsService.findById repoFindById sign id
        = Except.error (ServiceError.notFound (notFoundMsg id))
      ∧ (ProductsService.update repoFindById repoUpdate sign id dto).1
        = Except.error (ServiceError.badRequest ("Нельзя обновлять удалённый товар"))) := by
  constructor
  · intro h
    constructor
    · simp [ProductsService.findById, h]
    · simp [ProductsService.update, h]
  · intro p hp hdel
    constructor
    · simp [ProductsService.findById, hp, hdel]
    · simp [ProductsService.update, hp, hdel]

/-- C1 witness: the amended statement evaluated on concrete repositories
(id 2 absent; id 1 soft-deleted). -/
theorem c1_notFound_shapes_witness :
    (ProductsService.findById repoDeletedOnly signNone 2
        = Except.error (ServiceError.notFound (notFoundMsg 2))
      ∧ (ProductsService.update repoDeletedOnly (fun _ _ => sampleDeleted)
          signNone 2 emptyPatch).1
        = Except.error (ServiceError.notFound (notFoundMsg 2)))
    ∧ (ProductsService.findById repoDeletedOnly signNone 1
        = Except.error (ServiceError.notFound (notFoundMsg 1))
      ∧ (ProductsService.update repoDeletedOnly (fun _ _ => sampleDeleted)
          signNone 1 emptyPatch).1
        = Except.error (ServiceError.badRequest ("Нельзя обновлять удалённый товар"))) :=
  ⟨(c1_notFound_shapes repoDeletedOnly (fun _ _ => sampleDeleted)
      signNone 2 emptyPatch).1 rfl,
   (c1_notFound_shapes repoDeletedOnly (fun _ _ => sampleDeleted)
      signNone 1 emptyPatch).2 sampleDeleted rfl rfl⟩

/-- C2: create with `stockQuantity === 0` hands the repository a DTO whose
`inStock` is false whatever the caller supplied; with any other (or absent)
stockQuantity the DTO is handed over unchanged. -/
theorem c2_create_stock_zero
    (repoCreate : CreateProductDto → Product) (dto : CreateProductDto) :
    (dto.stockQuantity = some 0 →
      ((ProductsService.create repoCreate dto).2).inStock = some false)
    ∧ (dto.stockQuantity ≠ some 0 →
      (ProductsService.create repoCreate dto).2 = dto) := by
  constructor
  · intro h
    simp [ProductsService.create, h]
  · intro h
    simp [ProductsService.create, h]

/-- C2 witness: a caller-supplied `inStock := true` with zero stock is
overridden to false; positive stock with `inStock := false` passes through
untouched. -/
theorem c2_create_stock_zero_witness :
    ((ProductsService.create (fun _ => sampleActive)
      { name := "Widget", price := 10, stockQuantity := some 0,
        inStock := some true }).2).inStock = some false
    ∧ (ProductsService.create (fun _ => sampleActive)
      { name := "Widget", price := 10, stockQuantity := some 2,
        inStock := some false }).2
      = { name := "Widget", price := 10, stockQuantity := some 2,
          inStock := some false } :=
  ⟨(c2_create_stock_zero (fun _ => sampleActive)
      { name := "Widget", price := 10, stockQuantity := some 0,
        inStock := some true }).1 rfl,
   (c2_create_stock_zero (fun _ => sampleActive)
      { name := "Widget", price := 10, stockQuantity := some 2,
        inStock := some false }).2 (by decide)⟩

/-- C3: on an existing, non-deleted row, an update whose patch sets
`stockQuantity = q` hands the repository the patch with
`inStock := decide (0 < q)` (true for positive q, false for 0); a patch
without stockQuantity is handed over with `inStock` untouched. -/
theorem c3_update_recomputes_inStock
    (repoFindById : Nat → Option Product)
    (repoUpdate : Nat → UpdateProductDto → Product)
    (sign : String → Except String (Option String))
    (id : Nat) (dto : UpdateProductDto) (p : Product)
    (hfind : repoFindById id = some p) (hlive : p.isDeleted = false) :
    (∀ q, dto.stockQuantity = some q →
      (ProductsService.update repoFindById repoUpdate sign id dto).2
        = some { dto with inStock := some (decide (0 < q)) })
    ∧ (dto.stockQuantity = none →
      (ProductsService.update repoFindById repoUpdate sign id dto).2
        = some dto) := by
  constructor
  · intro q hq
    simp [ProductsService.update, hfind, hlive, effectivePatch, hq]
  · intro hq
    simp [ProductsService.update, hfind, hlive, effectivePatch, hq]

/-- A patch setting stock to 5 while claiming the product is out of stock. -/
def patchStockFive : UpdateProductDto :=
  { name := none, price := none, stockQuantity := some 5,
    inStock := some false, imageUrl := none }

/-- A patch touching only `inStock`. -/
def patchNoStock : UpdateProductDto :=
  { name := none, price := none, stockQuantity := none,
    inStock := some false, imageUrl := none }

/-- C3 witness: a patch setting stock to 5 over a caller-supplied
`inStock := false` reaches the repository with `inStock = true`; a patch
not touching stock keeps `inStock := false` as given. -/
theorem c3_update_recomputes_inStock_witness :
    (ProductsService.update repoActiveOnly (fun _ _ => sampleActive)
        signNone 1 patchStockFive).2
      = some { patchStockFive with inStock := some true }
    ∧ (ProductsService.update repoActiveOnly (fun _ _ => sampleActive)
        signNone 1 patchNoStock).2
      = some patchNoStock :=
  ⟨(c3_update_recomputes_inStock repoActiveOnly (fun _ _ => sampleActive)
      signNone 1 patchStockFive sampleActive rfl rfl).1 5 rfl,
   (c3_update_recomputes_inStock repoActiveOnly (fun _ _ => sampleActive)
      signNone 1 patchNoStock sampleActive rfl rfl).2 rfl⟩

/-- C4: no service response carries an `isDeleted` key — every product that
leaves findAll, findById, create, update or uploadImage went through the
spread copy that drops it. -/
theorem c4_responses_strip_isDeleted
    (repoFindAll : ProductFiltersDto → List Product)
    (repoFindById : Nat → Option Product)
    (repoCreate : CreateProductDto → Product)
    (repoUpdate : Nat → UpdateProductDto → Product)
    (repoUpdateE : Nat → UpdateProductDto → Except String Product)
    (uploadPI : List Nat → Nat → Except String String)
    (deleteF : String → Except String Unit)
    (sign : String → Except String (Option String))
    (filters : ProductFiltersDto) (id : Nat)
    (cdto : CreateProductDto) (udto : UpdateProductDto)
    (file : Option MulterFile) :
    (∀ r ∈ (ProductsService.findAll repoFindAll sign filters).1,
      r.isDeleted = JsField.absent)
    ∧ (∀ r, ProductsService.findById repoFindById sign id = Except.ok r →
      r.isDeleted = JsField.absent)
    ∧ (∀ r, (ProductsService.create repoCreate cdto).1 = Except.ok r →
      r.isDeleted = JsField.absent)
    ∧ (∀ r, (ProductsService.update repoFindById repoUpdate sign id udto).1
        = Except.ok r → r.isDeleted = JsField.absent)
    ∧ (∀ r, ProductsService.uploadImage repoFindById repoUpdateE uploadPI
        deleteF sign id file = Except.ok r → r.isDeleted = JsField.absent) := by
  refine ⟨?_, ?_, ?_, ?_, ?_⟩
  · intro r hr
    simp only [ProductsService.findAll, List.mem_map] at hr
    obtain ⟨p, -, rfl⟩ := hr
    exact stripIsDeleted_absent _
  · intro r hr
    unfold ProductsService.findById at hr
    split at hr
    · exact absurd hr (by simp)
    · split at hr
      · exact absurd hr (by simp)
      · cases hr
        exact stripIsDeleted_absent _
  · intro r hr
    unfold ProductsService.create at hr
    cases hr
    exact stripIsDeleted_absent _
  · intro r hr
    unfold ProductsService.update at hr
    split at hr
    · exact absurd hr (by simp)
    · split at hr
      · exact absurd hr (by simp)
      · cases hr
        exact stripIsDeleted_absent _
  · intro r hr
    unfold ProductsService.uploadImage at hr
    split at hr
    · exact absurd hr (by simp)
    · split at hr
      · exact absurd hr (by simp)
      · split at hr
        · exact absurd hr (by simp)
        · split at hr
          · exact absurd hr (by simp)
          · split at hr
            · rename_i r2 htry
              cases hr
              unfold ProductsService.uploadImageTry at htry
              split at htry
              · exact absurd htry (by simp)
              · split at htry
                · exact absurd htry (by simp)
                · split at htry
                  · exact absurd htry (by simp)
                  · cases htry
                    exact stripIsDeleted_absent _
            · exact absurd hr (by simp)

/-- C4 witness: the closed statement on the concrete one-row repository,
discharging the success hypotheses by evaluation. -/
theorem c4_responses_strip_isDeleted_witness :
    (stripIsDeleted (resolveImage signNone sampleActive)).isDeleted
      = JsField.absent :=
  (c4_responses_strip_isDeleted (fun _ => [sampleActive]) repoActiveOnly
    (fun _ => sampleActive) (fun _ _ => sampleActive)
    (fun _ _ => Except.ok sampleActive) (fun _ _ => Except.ok "u")
    (fun _ => Except.ok ()) signNone { includeDeleted := none } 1
    { name := "Widget", price := 10, stockQuantity := none, inStock := none }
    emptyPatch none).2.1 (stripIsDeleted (resolveImage signNone sampleActive))
    rfl

/-- C5: when a product's `imageUrl` is truthy, resolution replaces it by
the signed URL when the signer answers a truthy (non-empty) URL, and
deletes the key when the signer answers null or the falsy empty string or
the awaited call throws (never leaving the stale value, never writing
null); the spread copy keeps whatever resolution decided; and whether
findById succeeds is independent of the signer. -/
theorem c5_image_resolution
    (sign sign2 : String → Except String (Option String))
    (repoFindById : Nat → Option Product)
    (p : Product) (url : String) (id : Nat)
    (h : p.imageUrl.truthy = some url) :
    (∀ s, s ≠ "" → sign (lastSegment url) = Except.ok (some s) →
      (resolveImage sign p).imageUrl = JsField.val s)
    ∧ (sign (lastSegment url) = Except.ok none →
      (resolveImage sign p).imageUrl = JsField.absent)
    ∧ (sign (lastSegment url) = Except.ok (some "") →
      (resolveImage sign p).imageUrl = JsField.absent)
    ∧ (∀ e, sign (lastSegment url) = Except.error e →
      (resolveImage sign p).imageUrl = JsField.absent)
    ∧ (stripIsDeleted (resolveImage sign p)).imageUrl
        = (resolveImage sign p).imageUrl
    ∧ isOkE (ProductsService.findById repoFindById sign id)
        = isOkE (ProductsService.findById repoFindById sign2 id) := by
  refine ⟨?_, ?_, ?_, ?_, rfl, ?_⟩
  · intro s hne hs
    simp [resolveImage, h, hs, hne]
  · intro hs
    simp [resolveImage, h, hs]
  · intro hs
    simp [resolveImage, h, hs]
  · intro e hs
    simp [resolveImage, h, hs]
  · unfold ProductsService.findById
    cases repoFindById id with
    | none => rfl
    | some q =>
      by_cases hd : q.isDeleted <;> simp [hd, isOkE]

/-- A signer whose awaited call always throws. -/
def signThrow : String → Except String (Option String) :=
  fun _ => Except.error "boom"

/-- A signer answering the falsy empty string for every file name. -/
def signEmpty : String → Except String (Option String) :=
  fun _ => Except.ok (some "")

/-- C5 witness: on the sample product, a throwing signer and an
empty-string signer both leave the response without the imageUrl key, and
findById under the throwing signer succeeds exactly as under a
null-answering signer. -/
theorem c5_image_resolution_witness :
    (resolveImage signThrow sampleActive).imageUrl = JsField.absent
    ∧ (resolveImage signEmpty sampleActive).imageUrl = JsField.absent
    ∧ isOkE (ProductsService.findById repoActiveOnly signThrow 1)
        = isOkE (ProductsService.findById repoActiveOnly signNone 1) :=
  ⟨((c5_image_resolution signThrow signNone repoActiveOnly sampleActive
      "http://host:9000/images/product-1-5.jpg" 1 (by decide)).2.2.2.1) "boom" rfl,
   (c5_image_resolution signEmpty signNone repoActiveOnly sampleActive
      "http://host:9000/images/product-1-5.jpg" 1 (by decide)).2.2.1 rfl,
   (c5_image_resolution signThrow signNone repoActiveOnly sampleActive
      "http://host:9000/images/product-1-5.jpg" 1 (by decide)).2.2.2.2.2⟩

/-- After `softDelete id`, looking the id up again finds the same row with
the soft-delete flag set. -/
theorem repoFindByIdS_softDelete (s : List Product) (id : Nat) (p : Product)
    (h : repoFindByIdS s id = some p) :
    repoFindByIdS (repoSoftDeleteS s id) id = some { p with isDeleted := true } := by
  induction s with
  | nil => simp [repoFindByIdS] at h
  | cons a t ih =>
    simp only [repoFindByIdS, repoSoftDeleteS, List.map_cons] at h ih ⊢
    cases hid : (a.id == id) with
    | true =>
      rw [List.find?_cons_of_pos (p := fun x : Product => x.id == id) t hid] at h
      cases h
      rw [if_pos rfl]
      exact List.find?_cons_of_pos (p := fun x : Product => x.id == id) _ (by simpa using hid)
    | false =>
      rw [List.find?_cons_of_neg (p := fun x : Product => x.id == id) t (by simp [hid])] at h
      rw [if_neg (by simp)]
      rw [List.find?_cons_of_neg (p := fun x : Product => x.id == id) _ (by simp [hid])]
      exact ih h

/-- C6: remove on an absent or already soft-deleted id fails with NotFound,
leaves the repository state untouched and never invokes `softDelete`; after
a successful remove, a second remove of the same id fails with NotFound and
again leaves the state unchanged. -/
theorem c6_remove_idempotent (s : List Product) (id : Nat) :
    ((repoFindByIdS s id = none ∨
        (∃ p, repoFindByIdS s id = some p ∧ p.isDeleted = true)) →
      ProductsService.remove s id
        = (Except.error (ServiceError.notFound (notFoundMsg id)), s, false))
    ∧ (∀ p, repoFindByIdS s id = some p → p.isDeleted = false →
      (ProductsService.remove s id).1 = Except.ok ()
      ∧ ProductsService.remove (ProductsService.remove s id).2.1 id
          = (Except.error (ServiceError.notFound (notFoundMsg id)),
             (ProductsService.remove s id).2.1, false)) := by
  constructor
  · rintro (h | ⟨p, hp, hdel⟩)
    · simp [ProductsService.remove, h]
    · simp [ProductsService.remove, hp, hdel]
  · intro p hp hlive
    have h1 : ProductsService.remove s id
        = (Except.ok (), repoSoftDeleteS s id, true) := by
      simp [ProductsService.remove, hp, hlive]
    have h2 := repoFindByIdS_softDelete s id p hp
    refine ⟨by simp [h1], ?_⟩
    rw [h1]
    simp [ProductsService.remove, h2]

/-- C6 witness: on a one-row repository, removing id 1 succeeds and the
second removal fails with NotFound without changing the state. -/
theorem c6_remove_idempotent_witness :
    (ProductsService.remove [sampleActive] 1).1 = Except.ok ()
    ∧ ProductsService.remove (ProductsService.remove [sampleActive] 1).2.1 1
        = (Except.error (ServiceError.notFound (notFoundMsg 1)),
           (ProductsService.remove [sampleActive] 1).2.1, false) :=
  (c6_remove_idempotent [sampleActive] 1).2 sampleActive (by decide) rfl

/-- C7: when the caller leaves `includeDeleted` undefined, the filters
object handed to the repository carries `includeDeleted = false`; and the
response list has the repository list's length with the i-th response being
the i-th repository row resolved and stripped (order preserved). -/
theorem c7_findAll_defaults_and_order
    (repoFindAll : ProductFiltersDto → List Product)
    (sign : String → Except String (Option String))
    (filters : ProductFiltersDto) :
    (filters.includeDeleted = none →
      ((ProductsService.findAll repoFindAll sign filters).2).includeDeleted
        = some false)
    ∧ (ProductsService.findAll repoFindAll sign filters).1.length
        = (repoFindAll (effectiveFilters filters)).length
    ∧ (∀ (i : Nat)
        (hi : i < (ProductsService.findAll repoFindAll sign filters).1.length)
        (hj : i < (repoFindAll (effectiveFilters filters)).length),
        ((ProductsService.findAll repoFindAll sign filters).1).get ⟨i, hi⟩
          = stripIsDeleted (resolveImage sign
              ((repoFindAll (effectiveFilters filters)).get ⟨i, hj⟩))) := by
  refine ⟨?_, ?_, ?_⟩
  · intro h
    simp [ProductsService.findAll, effectiveFilters, h]
  · simp [ProductsService.findAll]
  · intro i hi hj
    simp [ProductsService.findAll, List.get_eq_getElem, List.getElem_map]

/-- C7 witness: a two-row repository queried with no filters keeps its
order and is queried with `includeDeleted = false`. -/
theorem c7_findAll_defaults_and_order_witness :
    ((ProductsService.findAll (fun _ => [sampleActive, sampleDeleted]) signNone
        { includeDeleted := none }).2).includeDeleted = some false
    ∧ ((ProductsService.findAll (fun _ => [sampleActive, sampleDeleted]) signNone
        { includeDeleted := none }).1).get
          ⟨1, by decide⟩
        = stripIsDeleted (resolveImage signNone sampleDeleted) :=
  ⟨(c7_findAll_defaults_and_order (fun _ => [sampleActive, sampleDeleted])
      signNone { includeDeleted := none }).1 rfl,
   (c7_findAll_defaults_and_order (fun _ => [sampleActive, sampleDeleted])
      signNone { includeDeleted := none }).2.2 1 (by decide) (by decide)⟩

/-- deleteOldImage swallows every outcome of the store deletion: it never
throws. -/
theorem deleteOldImage_ok (deleteF : String → Except String Unit)
    (imageUrl : String) :
    ProductsService.deleteOldImage deleteF imageUrl = Except.ok () := by
  simp only [ProductsService.deleteOldImage]
  cases h : deleteF ((imageUrl.splitOn ("/")).getLastD "") <;> simp [h]

/-- C8: `deleteFile` re-throws the store error it hits, while
`deleteOldImage` swallows it, so the outcome of uploadImage does not depend
on the old-image delete oracle at all — a failing delete never stops the
upload and persistence steps. -/
theorem c8_delete_error_containment
    (removeObject : String → Except String Unit) (fileName : String)
    (e : String)
    (deleteF deleteF2 : String → Except String Unit) (imageUrl : String)
    (repoFindById : Nat → Option Product)
    (repoUpdateE : Nat → UpdateProductDto → Except String Product)
    (uploadPI : List Nat → Nat → Except String String)
    (sign : String → Except String (Option String))
    (id : Nat) (file : Option MulterFile)
    (h : removeObject fileName = Except.error e) :
    MinioSimpleService.deleteFile removeObject fileName = Except.error e
    ∧ ProductsService.deleteOldImage deleteF imageUrl = Except.ok ()
    ∧ ProductsService.uploadImage repoFindById repoUpdateE uploadPI deleteF
        sign id file
      = ProductsService.uploadImage repoFindById repoUpdateE uploadPI deleteF2
        sign id file := by
  refine ⟨?_, deleteOldImage_ok deleteF imageUrl, ?_⟩
  · unfold MinioSimpleService.deleteFile
    rw [h]
  · unfold ProductsService.uploadImage ProductsService.uploadImageTry
    simp only [deleteOldImage_ok]

/-- An always-failing store delete. -/
def removeObjectFail : String → Except String Unit :=
  fun _ => Except.error "minio down"

/-- C8 witness: with a failing delete oracle, deleteFile re-throws while an
uploadImage on the sample product (which has an old image) behaves exactly
as with a succeeding delete oracle. -/
theorem c8_delete_error_containment_witness :
    MinioSimpleService.deleteFile removeObjectFail "product-1-5.jpg"
      = Except.error "minio down"
    ∧ ProductsService.deleteOldImage removeObjectFail
        "http://host:9000/images/product-1-5.jpg" = Except.ok ()
    ∧ ProductsService.uploadImage repoActiveOnly
        (fun _ _ => Except.ok sampleActive) (fun _ _ => Except.ok "u")
        removeObjectFail signNone 1
        (some { mimetype := "image/png", buffer := [1] })
      = ProductsService.uploadImage repoActiveOnly
        (fun _ _ => Except.ok sampleActive) (fun _ _ => Except.ok "u")
        (fun _ => Except.ok ()) signNone 1
        (some { mimetype := "image/png", buffer := [1] }) :=
  c8_delete_error_containment removeObjectFail "product-1-5.jpg" "minio down"
    removeObjectFail (fun _ => Except.ok ())
    "http://host:9000/images/product-1-5.jpg" repoActiveOnly
    (fun _ _ => Except.ok sampleActive) (fun _ _ => Except.ok "u") signNone 1
    (some { mimetype := "image/png", buffer := [1] }) rfl

/-- C9: uploadProductImage issues its putObject call under the
`product-<id>-<now>.jpg` key with a hardcoded image/jpeg content type,
whatever the bytes are; and on success it returns the URL string assembled
from the configuration, with https exactly when the TLS flag is the string
true. -/
theorem c9_upload_key_and_url (cfg : MinioConfig)
    (put : PutCall → Except String Unit) (now : Nat)
    (file : List Nat) (productId : Nat) :
    (MinioSimpleService.uploadProductImage cfg put now file productId).2.fileName
      = "product-" ++ toString productId ++ "-" ++ toString now ++ ".jpg"
    ∧ (MinioSimpleService.uploadProductImage cfg put now file productId).2.contentType
      = "image/jpeg"
    ∧ (MinioSimpleService.uploadProductImage cfg put now file productId).2.bucket
      = cfg.bucket
    ∧ (MinioSimpleService.uploadProductImage cfg put now file productId).2.bytes
      = file
    ∧ (put (MinioSimpleService.uploadProductImage cfg put now file productId).2
        = Except.ok () →
      (MinioSimpleService.uploadProductImage cfg put now file productId).1
        = Except.ok ((if cfg.useSSL = "true" then "https" else "http")
            ++ "://" ++ cfg.endPoint ++ ":" ++ toString cfg.port ++ "/"
            ++ cfg.bucket ++ "/"
            ++ ("product-" ++ toString productId ++ "-" ++ toString now ++ ".jpg"))) := by
  simp only [MinioSimpleService.uploadProductImage]
  cases hput : put { bucket := cfg.bucket, fileName := "product-" ++ toString productId ++ "-" ++ toString now ++ ".jpg", bytes := file, size := file.length, contentType := "image/jpeg" } with
  | ok u => simp [hput]
  | error e => simp [hput]

/-- A sample MinIO configuration with TLS off. -/
def cfgPlain : MinioConfig :=
  { endPoint := "localhost", port := 9000, useSSL := "false",
    bucket := "products" }

/-- C9 witness: with TLS off, a successful put of two bytes for product 7
at clock 5 yields the http URL with the product-7-5.jpg key. -/
theorem c9_upload_key_and_url_witness :
    (MinioSimpleService.uploadProductImage cfgPlain (fun _ => Except.ok ())
        5 [7, 7] 7).1
      = Except.ok "http://localhost:9000/products/product-7-5.jpg"
    ∧ (MinioSimpleService.uploadProductImage cfgPlain (fun _ => Except.ok ())
        5 [7, 7] 7).2.contentType = "image/jpeg" := by
  have h := c9_upload_key_and_url cfgPlain (fun _ => Except.ok ()) 5 [7, 7] 7
  refine ⟨?_, h.2.1⟩
  rw [h.2.2.2.2 rfl]
  rfl

/-- C10: the uploadImage pre-checks throw their own error shapes whatever
the storage and repository oracles would do — NotFound for an absent or
soft-deleted product, BadRequest for a missing file or a non-image
mimetype — while an upload or persistence failure inside the try block is
re-signaled as the generic internal upload-failed error. -/
theorem c10_upload_error_shapes
    (repoFindById : Nat → Option Product)
    (repoUpdateE : Nat → UpdateProductDto → Except String Product)
    (uploadPI : List Nat → Nat → Except String String)
    (deleteF : String → Except String Unit)
    (sign : String → Except String (Option String))
    (id : Nat) (file : Option MulterFile) :
    (repoFindById id = none →
      ProductsService.uploadImage repoFindById repoUpdateE uploadPI deleteF
        sign id file
      = Except.error (ServiceError.notFound (notFoundMsg id)))
    ∧ (∀ p, repoFindById id = some p → p.isDeleted = true →
      ProductsService.uploadImage repoFindById repoUpdateE uploadPI deleteF
        sign id file
      = Except.error (ServiceError.notFound (notFoundMsg id)))
    ∧ (∀ p, repoFindById id = some p → p.isDeleted = false → file = none →
      ProductsService.uploadImage repoFindById repoUpdateE uploadPI deleteF
        sign id file
      = Except.error (ServiceError.badRequest ("Файл не предоставлен")))
    ∧ (∀ p f, repoFindById id = some p → p.isDeleted = false →
      file = some f → strStartsWith f.mimetype ("image/") = false →
      ProductsService.uploadImage repoFindById repoUpdateE uploadPI deleteF
        sign id file
      = Except.error (ServiceError.badRequest ("Файл должен быть изображением")))
    ∧ (∀ p f e, repoFindById id = some p → p.isDeleted = false →
      file = some f → strStartsWith f.mimetype ("image/") = true →
      uploadPI f.buffer id = Except.error e →
      ProductsService.uploadImage repoFindById repoUpdateE uploadPI deleteF
        sign id file
      = Except.error (ServiceError.internal ("Не удалось загрузить изображение")))
    ∧ (∀ p f url e, repoFindById id = some p → p.isDeleted = false →
      file = some f → strStartsWith f.mimetype ("image/") = true →
      uploadPI f.buffer id = Except.ok url →
      repoUpdateE id { emptyPatch with imageUrl := some url }
        = Except.error e →
      ProductsService.uploadImage repoFindById repoUpdateE uploadPI deleteF
        sign id file
      = Except.error (ServiceError.internal ("Не удалось загрузить изображение"))) := by
  refine ⟨?_, ?_, ?_, ?_, ?_, ?_⟩
  · intro h
    simp [ProductsService.uploadImage, h]
  · intro p hp hdel
    simp [ProductsService.uploadImage, hp, hdel]
  · intro p hp hlive hfile
    simp [ProductsService.uploadImage, hp, hlive, hfile]
  · intro p f hp hlive hfile hmime
    simp [ProductsService.uploadImage, hp, hlive, hfile, hmime]
  · intro p f e hp hlive hfile hmime hup
    cases htr : p.imageUrl.truthy <;>
      simp [ProductsService.uploadImage, ProductsService.uploadImageTry,
        hp, hlive, hfile, hmime, hup, deleteOldImage_ok, htr]
  · intro p f url e hp hlive hfile hmime hup hrepo
    cases htr : p.imageUrl.truthy <;>
      simp [ProductsService.uploadImage, ProductsService.uploadImageTry,
        hp, hlive, hfile, hmime, hup, hrepo, deleteOldImage_ok, htr]

/-- C10 witness: the pre-check errors and the masked internal error on
concrete oracles — a deleted product gives NotFound even under failing
storage oracles, and a failing upload on a live product gives the generic
internal error. -/
theorem c10_upload_error_shapes_witness :
    ProductsService.uploadImage repoDeletedOnly
        (fun _ _ => Except.error "db") (fun _ _ => Except.error "minio")
        removeObjectFail signNone 1
        (some { mimetype := "image/png", buffer := [1] })
      = Except.error (ServiceError.notFound (notFoundMsg 1))
    ∧ ProductsService.uploadImage repoActiveOnly
        (fun _ _ => Except.ok sampleActive) (fun _ _ => Except.error "minio")
        (fun _ => Except.ok ()) signNone 1
        (some { mimetype := "image/png", buffer := [1] })
      = Except.error (ServiceError.internal ("Не удалось загрузить изображение")) :=
  ⟨(c10_upload_error_shapes repoDeletedOnly (fun _ _ => Except.error "db")
      (fun _ _ => Except.error "minio") removeObjectFail signNone 1
      (some { mimetype := "image/png", buffer := [1] })).2.1
      sampleDeleted rfl rfl,
   (c10_upload_error_shapes repoActiveOnly (fun _ _ => Except.ok sampleActive)
      (fun _ _ => Except.error "minio") (fun _ => Except.ok ()) signNone 1
      (some { mimetype := "image/png", buffer := [1] })).2.2.2.2.1
      sampleActive { mimetype := "image/png", buffer := [1] } "minio"
      rfl rfl rfl (by decide) rfl⟩
